import Mathlib

/-!
# Verification of the TRANSCRYPT payment front-end

A shallow embedding of the repository's payment-submission flow
(`src/Frontend/src/lib/stellar-client.ts`), the UI handler that drives it
(`src/Frontend/src/components/ui/stellar-trade-executor.tsx`), and the
transaction-list view (the unnamed `TransactionList` component).

Third-party behaviour (the Horizon server, the SDK's `Keypair.fromSecret`,
JS locale formatting) is passed in as explicit oracles/parameters; the
repository's own code is translated line by line.  Machine-level JS values
are modelled as: numbers by exact decimals (`JsNum`, with `Option` where
`NaN` can arise), strings by `String`, thrown `Error`s by `Except String`.
-/

/-- An exact decimal number, `mantissa / 10 ^ scale`: the model of the JS
number values that flow through this front-end (all of them parsed from or
printed as decimal literals). -/
structure JsNum where
  mantissa : Int
  scale : Nat
deriving DecidableEq, Repr

/-- `Math.abs`. -/
def JsNum.abs (x : JsNum) : JsNum :=
  { x with mantissa := x.mantissa.natAbs }

/-- A whole-number JS literal. -/
def JsNum.ofNat (n : Nat) : JsNum :=
  { mantissa := n, scale := 0 }

/-- Model of the JS `String.prototype.toUpperCase` on the ASCII currency
tags this front-end uses. -/
def jsToUpperCase (s : String) : String :=
  String.mk (s.data.map Char.toUpper)

/-- Outcomes (`Except`) of the embedded calls can be compared for equality
so that concrete runs are checkable by evaluation. -/
instance exceptDecidableEq {ε α : Type} [DecidableEq ε] [DecidableEq α] :
    DecidableEq (Except ε α)
  | .error a, .error b =>
    if h : a = b then .isTrue (by rw [h])
    else .isFalse (fun he => h (Except.error.inj he))
  | .error _, .ok _ => .isFalse Except.noConfusion
  | .ok _, .error _ => .isFalse Except.noConfusion
  | .ok a, .ok b =>
    if h : a = b then .isTrue (by rw [h])
    else .isFalse (fun he => h (Except.ok.inj he))

/-- JS truthiness helper for strings: `s || dflt` (empty string is falsy). -/
def jsOr (s dflt : String) : String :=
  if s = "" then dflt else s

/-- JS truthiness helper for optional strings: `x?.f || dflt`
(`undefined` and the empty string are both falsy). -/
def jsOrElse (m : Option String) (dflt : String) : String :=
  match m with
  | none => dflt
  | some s => if s = "" then dflt else s

/-- Digits of a numeral to a natural number. -/
def digitsToNat (l : List Char) : Nat :=
  l.foldl (fun a c => a * 10 + (c.toNat - 48)) 0

/-- The signed decimal numeral read from a character list: the sign, the
integer digits, the fraction digits, and what is left after them. -/
def readDecimal (cs : List Char) :
    Bool × List Char × List Char × List Char :=
  let signed : Bool × List Char :=
    match cs with
    | '-' :: rest => (true, rest)
    | '+' :: rest => (false, rest)
    | _ => (false, cs)
  let intPart := signed.2.takeWhile Char.isDigit
  let rest := signed.2.dropWhile Char.isDigit
  match rest with
  | '.' :: r => (signed.1, intPart, r.takeWhile Char.isDigit, r.dropWhile Char.isDigit)
  | _ => (signed.1, intPart, [], rest)

/-- The value of a read decimal: `int.frac` scaled to a `JsNum`. -/
def decimalValue (neg : Bool) (intPart fracPart : List Char) : JsNum :=
  let m : Int := digitsToNat intPart * 10 ^ fracPart.length + digitsToNat fracPart
  { mantissa := if neg then -m else m, scale := fracPart.length }

/-- Model of the JS builtin `parseFloat` on the decimal strings this
front-end feeds it: an optional sign, then a longest prefix of the form
`digits[.digits]`; trailing junk is ignored; `none` models `NaN`
(no parsable prefix). -/
def jsParseFloat (s : String) : Option JsNum :=
  match readDecimal s.data with
  | (neg, intPart, fracPart, _) =>
    if intPart.isEmpty && fracPart.isEmpty then none
    else some (decimalValue neg intPart fracPart)

/-- Model of the JS builtin `Number(s)` on decimal strings: blank strings
coerce to `0`; otherwise the whole (whitespace-trimmed) string must be a
signed decimal numeral; `none` models `NaN`. -/
def jsNumber (s : String) : Option JsNum :=
  let cs := (s.data.dropWhile Char.isWhitespace).reverse.dropWhile Char.isWhitespace |>.reverse
  if cs.isEmpty then some (.ofNat 0)
  else
    match readDecimal cs with
    | (neg, intPart, fracPart, leftover) =>
      if intPart.isEmpty && fracPart.isEmpty then none
      else if ¬ leftover.isEmpty then none
      else some (decimalValue neg intPart fracPart)

/-- A JS `Error` as inspected by the catch blocks: it may or may not carry a
`message` string (`error?.message`). -/
structure JsError where
  message : Option String
deriving DecidableEq, Repr

/-- `error?.message || 'Unknown error'` from the catch blocks of
`executePayment` and `getAccountBalance`. -/
def JsError.displayMessage (e : JsError) : String :=
  jsOrElse e.message "Unknown error"

/-- An SDK keypair: the public key (`publicKey()`) and the secret it was
derived from. -/
structure Keypair where
  pub : String
  sec : String
deriving DecidableEq, Repr

/-- One balance line of a Horizon account record, as read by
`getAccountBalance` (`asset_type`, `asset_code`, `balance`). -/
structure BalanceLine where
  asset_type : String
  asset_code : Option String
  balance : String
deriving DecidableEq, Repr

/-- A Horizon account record as used by the client: the account id and the
sequence number that `loadAccount` fetches, plus the balance lines. -/
structure HorizonAccount where
  accountId : String
  sequence : Nat
  balances : List BalanceLine
deriving DecidableEq, Repr

/-- The result record of a successful Horizon transaction submission, as
used by `executePayment` (`result.hash`). -/
structure SubmitResult where
  hash : String
deriving DecidableEq, Repr

/-- A Stellar asset as constructed at line 80 of `stellar-client.ts`:
`Asset.native()` or `new Asset(code, issuer)`. -/
inductive StellarAsset where
  | native
  | issued (code issuer : String)
deriving DecidableEq, Repr

/-- The payment operation added at lines 77–84 of `stellar-client.ts`. -/
structure PaymentOp where
  destination : String
  asset : StellarAsset
  amount : String
  source : String
deriving DecidableEq, Repr

/-- The transaction produced by the `TransactionBuilder` pipeline of
`executePayment`: fee and passphrase from the builder options, the loaded
source account, the added operations and memo, the timeout set by
`setTimeout`, and the keypairs that signed it. -/
structure BuiltTransaction where
  sourceAccount : String
  sequence : Nat
  fee : String
  networkPassphrase : String
  operations : List PaymentOp
  memo : Option String
  timeout : Option Nat
  signers : List Keypair
deriving DecidableEq, Repr

/-- A network request issued by the client, for stating trace properties. -/
inductive NetEvent where
  | loadAccount (key : String)
  | submitTransaction (tx : BuiltTransaction)
deriving DecidableEq, Repr

/-- Whether a network event is a transaction submission. -/
def NetEvent.isSubmit : NetEvent → Bool
  | .submitTransaction _ => true
  | _ => false

/-- The timeout fields of the transactions submitted in a trace. -/
def submittedTimeouts (trace : List NetEvent) : List (Option Nat) :=
  trace.filterMap fun e =>
    match e with
    | .submitTransaction tx => some tx.timeout
    | _ => none

/-- The Horizon server oracle: the behaviour of the two remote calls the
client makes.  The repository's code treats both as opaque async calls. -/
structure HorizonServer where
  loadAccount : String → Except JsError HorizonAccount
  submitTransaction : BuiltTransaction → Except JsError SubmitResult

/-- `Networks.TESTNET` of the SDK. -/
def testnetPassphrase : String := "Test SDF Network ; September 2015"

/-- `Networks.PUBLIC` of the SDK. -/
def publicPassphrase : String := "Public Global Stellar Network ; September 2015"

/-- The fields of a `StellarTrader` instance: the server handle (its URL),
the private keypair slot, and the network passphrase. -/
structure TraderState where
  serverUrl : String
  keypair : Option Keypair
  networkPassphrase : String
deriving DecidableEq, Repr

namespace StellarTrader

/-- The `StellarTrader` constructor (lines 28–37 of `stellar-client.ts`). -/
def new (network : String) : TraderState :=
  { serverUrl :=
      if network = "testnet" then "https://horizon-testnet.stellar.org"
      else "https://horizon.stellar.org"
  , keypair := none
  , networkPassphrase :=
      if network = "testnet" then testnetPassphrase else publicPassphrase }

/-- `isReady()` (lines 40–42): the keypair slot is non-null. -/
def isReady (st : TraderState) : Bool :=
  st.keypair.isSome

/-- `connect(secretKey)` (lines 45–53): derive a keypair from the secret via
the SDK (`fromSecret` oracle; `none` models a thrown strkey error) and store
it, returning `true`; on a throw, log and return `false` with the state
untouched. -/
def connect (fromSecret : String → Option Keypair) (st : TraderState)
    (secretKey : String) : Bool × TraderState :=
  match fromSecret secretKey with
  | some kp => (true, { st with keypair := some kp })
  | none => (false, st)

/-- The transaction-construction pipeline of `executePayment`
(lines 71–96): builder options `fee: '100'` and the trader's passphrase,
one payment operation (native asset when the code is `'XLM'`, otherwise an
asset issued by the trader's own public key), a text memo only when the
memo string is truthy, `setTimeout(30)`, build, then sign with the stored
keypair. -/
def buildPaymentTx (st : TraderState) (kp : Keypair)
    (sourceAccount : HorizonAccount)
    (destination amount assetCode memo : String) : BuiltTransaction :=
  { sourceAccount := sourceAccount.accountId
  , sequence := sourceAccount.sequence
  , fee := "100"
  , networkPassphrase := st.networkPassphrase
  , operations :=
      [ { destination := destination
        , asset := if assetCode = "XLM" then .native else .issued assetCode kp.pub
        , amount := amount
        , source := kp.pub } ]
  , memo := if memo = "" then none else some memo
  , timeout := some 30
  , signers := [kp] }

/-- The trade-result record of `stellar-client.ts` lines 11–20.  `amount`
is an `Option JsNum` because it is produced by `parseFloat`. -/
structure TradeResult where
  id : String
  fromAsset : String
  toAsset : String
  amount : Option JsNum
  rate : JsNum
  timestamp : Nat
  hash : String
  status : String
deriving DecidableEq, Repr

/-- The error message thrown at lines 62–64 when no keypair is stored. -/
def notConnectedMsg : String :=
  "Not connected. Call connect() with a valid secret key first."

/-- `executePayment(destination, amount, assetCode, memo)`
(lines 56–118): throw if not connected; otherwise load the source account,
build and sign the payment transaction, submit it, and return a
`'completed'` trade result; any error from the two network calls is caught
and re-thrown as `Payment failed: …`.  Returns the outcome, the trace of
network requests issued, and the trader state afterwards.  `now` models
`new Date()`. -/
def executePayment (srv : HorizonServer) (now : Nat) (st : TraderState)
    (destination amount : String) (assetCode : String) (memo : String) :
    Except String TradeResult × List NetEvent × TraderState :=
  match st.keypair with
  | none => (.error notConnectedMsg, [], st)
  | some kp =>
    match srv.loadAccount kp.pub with
    | .error e =>
        (.error ("Payment failed: " ++ e.displayMessage),
         [.loadAccount kp.pub], st)
    | .ok sourceAccount =>
      let tx := buildPaymentTx st kp sourceAccount destination amount assetCode memo
      match srv.submitTransaction tx with
      | .error e =>
          (.error ("Payment failed: " ++ e.displayMessage),
           [.loadAccount kp.pub, .submitTransaction tx], st)
      | .ok result =>
          (.ok { id := result.hash
               , fromAsset := assetCode
               , toAsset := "XLM"
               , amount := jsParseFloat amount
               , rate := .ofNat 1
               , timestamp := now
               , hash := result.hash
               , status := "completed" },
           [.loadAccount kp.pub, .submitTransaction tx], st)

/-- The balance pair returned by `getAccountBalance`. -/
structure Balances where
  xlm : String
  usd : String
deriving DecidableEq, Repr

/-- `getAccountBalance(publicKey)` (lines 121–135): load the account, read
the native and USD balance lines (`|| '0'` when absent), and wrap any
network error as `Failed to get account balance: …`. -/
def getAccountBalance (srv : HorizonServer) (st : TraderState)
    (publicKey : String) :
    Except String Balances × List NetEvent × TraderState :=
  match srv.loadAccount publicKey with
  | .error e =>
      (.error ("Failed to get account balance: " ++ e.displayMessage),
       [.loadAccount publicKey], st)
  | .ok account =>
      let xlmBalance :=
        jsOrElse ((account.balances.find? fun b => b.asset_type = "native").map
          BalanceLine.balance) "0"
      let usdBalance :=
        jsOrElse ((account.balances.find? fun b => b.asset_code = some "USD").map
          BalanceLine.balance) "0"
      (.ok { xlm := xlmBalance, usd := usdBalance }, [.loadAccount publicKey], st)

end StellarTrader

namespace TradeExecutor

open StellarTrader

/-- The component state of `StellarTradeExecutor` touched by
`handleExecutePayment` (`stellar-trade-executor.tsx`).  Transient busy
flags (`isExecuting`, set on entry and cleared in the `finally`) are
omitted: they are restored before the handler returns. -/
structure UiState where
  amount : String
  fromCurrency : String
  destination : String
  memo : String
  showPaymentDialog : Bool
  balance : Option Balances
  lastTrade : Option TradeResult
deriving DecidableEq, Repr

/-- `handleExecutePayment` (`stellar-trade-executor.tsx` lines 62–100):
validate the form, call `executePayment`, and on success store the result,
toast, reload the balance with the secret key read from `localStorage`
(`store`), and reset the form; any throw is caught and toasted as
`Payment failed: …`.  Returns the new UI state, the toasts shown in order,
and the trace of network requests issued. -/
def handleExecutePayment (srv : HorizonServer) (store : Option String)
    (now : Nat) (st : TraderState) (ui : UiState) :
    UiState × List String × List NetEvent :=
  if ui.amount = "" || (jsNumber ui.amount).isNone || ui.destination = "" then
    (ui, ["Please fill in all required fields"], [])
  else
    match executePayment srv now st ui.destination ui.amount ui.fromCurrency ui.memo with
    | (.error m, tr, _) => (ui, ["Payment failed: " ++ m], tr)
    | (.ok result, tr, _) =>
      let ui1 := { ui with lastTrade := some result }
      let toasts1 := ["Payment executed successfully!"]
      match store with
      | some secretKey =>
        if secretKey = "" then
          ({ ui1 with amount := "", destination := "", memo := ""
                    , showPaymentDialog := false }, toasts1, tr)
        else
          match getAccountBalance srv st secretKey with
          | (.error m2, tr2, _) =>
              (ui1, toasts1 ++ ["Payment failed: " ++ m2], tr ++ tr2)
          | (.ok accountBalance, tr2, _) =>
              ({ ui1 with balance := some accountBalance
                        , amount := "", destination := "", memo := ""
                        , showPaymentDialog := false },
               toasts1, tr ++ tr2)
      | none =>
          ({ ui1 with amount := "", destination := "", memo := ""
                    , showPaymentDialog := false }, toasts1, tr)

end TradeExecutor

namespace TransactionList

/-- The transaction-display record (`Transaction` type of the transaction
list component). -/
structure Transaction where
  id : Int
  type : String
  name : String
  amount : JsNum
  wallet_type : Option String
  crypto_symbol : Option String
  target_currency : Option String
  date : String
  status : String
deriving DecidableEq, Repr

/-- The status labels the `Transaction` and `TradeResult` types admit. -/
def statusLabels : List String := ["completed", "pending", "failed"]

/-- `getCurrency`: target currency (default `'INR'`) for conversions,
otherwise the upper-cased wallet type or `'UNKNOWN'`. -/
def getCurrency (t : Transaction) : String :=
  if t.type = "convert" then jsOrElse t.target_currency "INR"
  else jsOrElse (t.wallet_type.map jsToUpperCase) "UNKNOWN"

/-- `getIcon`: the icon component chosen per transaction type
(`null` for unknown types). -/
def getIcon (type : String) : Option String :=
  if type = "sent" then some "ArrowUpRight"
  else if type = "received" then some "ArrowDownLeft"
  else if type = "convert" then some "RefreshCw"
  else none

/-- `getStatusColor`: the badge classes per status; the `switch` has no
default, so an unknown label yields `undefined`. -/
def getStatusColor (status : String) : Option String :=
  if status = "completed" then some "bg-green-900/30 text-green-500 border-0"
  else if status = "pending" then some "bg-yellow-600/20 text-yellow-500 border-0"
  else if status = "failed" then some "bg-red-900/20 text-red-500 border-0"
  else none

/-- `status.charAt(0).toUpperCase() + status.slice(1)` from the badge. -/
def capitalizeStatus (s : String) : String :=
  match s.data with
  | [] => ""
  | c :: rest => String.mk (c.toUpper :: rest)

/-- The sign prefix of the amount cell:
`type === 'sent' ? '-' : type === 'received' ? '+' : ''`. -/
def amountSign (type : String) : String :=
  if type = "sent" then "-" else if type = "received" then "+" else ""

/-- Browser-provided formatting used by the component: `new Date(…)` +
`toLocaleDateString` and `toLocaleString` are environment behaviour, passed
in as an oracle. -/
structure JsEnv where
  formatDate : String → String
  formatAmount : JsNum → String

/-- The data rendered for one transaction row (lines 99–147 of the
component). -/
structure RenderedRow where
  key : Int
  icon : String
  nameText : String
  dateText : String
  amountText : String
  badgeText : String
  badgeColor : Option String
deriving DecidableEq, Repr

/-- Render one transaction row: id as the React key, icon by type with the
`?` fallback, `name || 'Unknown'`, the formatted date, the signed
currency-tagged absolute amount, and the capitalized status badge. -/
def renderRow (env : JsEnv) (t : Transaction) : RenderedRow :=
  { key := t.id
  , icon := (getIcon t.type).getD "?"
  , nameText := jsOr t.name "Unknown"
  , dateText := env.formatDate t.date
  , amountText := amountSign t.type ++ getCurrency t ++ env.formatAmount t.amount.abs
  , badgeText := capitalizeStatus t.status
  , badgeColor := getStatusColor t.status }

/-- What the list body shows: the empty-state message or the rows. -/
inductive Rendered where
  | empty (msg : String)
  | rows (rs : List RenderedRow)
deriving DecidableEq, Repr

/-- The list body (lines 93–149): the empty-state text when no transactions
were supplied, otherwise one row per supplied transaction via `map`. -/
def renderTransactionList (env : JsEnv) (transactions : List Transaction) :
    Rendered :=
  if transactions.length = 0 then .empty "No transactions yet"
  else .rows (transactions.map (renderRow env))

end TransactionList

/-! ## Concrete fixtures for witnesses and counterexamples -/

open StellarTrader TradeExecutor TransactionList

/-- A connected trader's keypair. -/
def kp0 : Keypair := { pub := "GPUB", sec := "SSECRETKEY" }

/-- A Horizon account record for `kp0`'s account. -/
def acct0 : HorizonAccount :=
  { accountId := "GPUB", sequence := 7
  , balances := [ { asset_type := "native", asset_code := none, balance := "100.5" } ] }

/-- A Horizon oracle that behaves like the real network: it knows the
account of `kp0.pub` only (in particular a lookup keyed by a secret-key
string is rejected) and accepts submissions. -/
def srv0 : HorizonServer :=
  { loadAccount := fun key =>
      if key = "GPUB" then .ok acct0 else .error { message := some "Not Found" }
  , submitTransaction := fun _ => .ok { hash := "abc123" } }

/-- A Horizon oracle whose account lookups fail. -/
def srvLoadFail : HorizonServer :=
  { loadAccount := fun _ => .error { message := some "Network Error" }
  , submitTransaction := fun _ => .ok { hash := "abc123" } }

/-- A Horizon oracle that rejects submissions with a message-less error. -/
def srvSubmitFail : HorizonServer :=
  { loadAccount := fun key =>
      if key = "GPUB" then .ok acct0 else .error { message := some "Not Found" }
  , submitTransaction := fun _ => .error { message := none } }

/-- A trader that has connected with `kp0`. -/
def st0 : TraderState :=
  { serverUrl := "https://horizon-testnet.stellar.org"
  , keypair := some kp0
  , networkPassphrase := testnetPassphrase }

/-- A filled-in payment form. -/
def ui0 : UiState :=
  { amount := "10", fromCurrency := "XLM", destination := "GDEST", memo := ""
  , showPaymentDialog := true, balance := none, lastTrade := none }

/-- A browser-formatting oracle. -/
def env0 : JsEnv :=
  { formatDate := fun _ => "Jan 1, 2026", formatAmount := fun _ => "1.00" }

/-- A transaction-display record. -/
def t1 : Transaction :=
  { id := 1, type := "sent", name := "Alice", amount := .ofNat 100
  , wallet_type := some "btc", crypto_symbol := none, target_currency := none
  , date := "2026-01-01", status := "pending" }

/-! ## Claim theorems -/

/-- **C2.** Every failure of an underlying network call — the account load
or the submission inside `executePayment`, or the account load inside
`getAccountBalance` — is caught and re-raised as the single generic failure
(`Payment failed: …` resp. `Failed to get account balance: …`, carrying the
original message or `Unknown error`); the result is exactly that wrapped
error, the trace stops at the failing call (no retry or fallback), and the
trader state is untouched. -/
theorem C2_network_errors_wrapped
    (srv : HorizonServer) (now : Nat) (st : TraderState) (kp : Keypair)
    (dest amt ac memo pk : String) (e : JsError)
    (hkp : st.keypair = some kp) :
    (srv.loadAccount kp.pub = .error e →
      executePayment srv now st dest amt ac memo =
        (.error ("Payment failed: " ++ e.displayMessage),
         [.loadAccount kp.pub], st)) ∧
    (∀ acct, srv.loadAccount kp.pub = .ok acct →
      srv.submitTransaction (buildPaymentTx st kp acct dest amt ac memo) = .error e →
      executePayment srv now st dest amt ac memo =
        (.error ("Payment failed: " ++ e.displayMessage),
         [.loadAccount kp.pub,
          .submitTransaction (buildPaymentTx st kp acct dest amt ac memo)], st)) ∧
    (srv.loadAccount pk = .error e →
      getAccountBalance srv st pk =
        (.error ("Failed to get account balance: " ++ e.displayMessage),
         [.loadAccount pk], st)) := by
  refine ⟨?_, ?_, ?_⟩
  · intro h
    simp [executePayment, hkp, h]
  · intro acct h1 h2
    simp [executePayment, hkp, h1, h2]
  · intro h
    simp [getAccountBalance, h]

/-- Witness for C2 at a concrete failing load: the wrapped message carries
the oracle's error text. -/
theorem C2_network_errors_wrapped_witness :
    st0.keypair = some kp0 ∧
    srvLoadFail.loadAccount kp0.pub = .error { message := some "Network Error" } ∧
    executePayment srvLoadFail 0 st0 "GDEST" "10" "XLM" "" =
      (.error ("Payment failed: " ++
         JsError.displayMessage { message := some "Network Error" }),
       [.loadAccount kp0.pub], st0) :=
  ⟨by decide, by decide,
   (C2_network_errors_wrapped srvLoadFail 0 st0 kp0 "GDEST" "10" "XLM" "" "GPUB"
      { message := some "Network Error" } (by decide)).1 (by decide)⟩

/-- **C3, counterexample.** The claim "no timeout value set by this
repository's code" is false: on a concrete connected run of
`executePayment`, the transaction handed to the network carries the
30-second timebound that `transaction.setTimeout(30)` set. -/
theorem C3_counterexample :
    submittedTimeouts (executePayment srv0 0 st0 "GDEST" "10" "XLM" "").2.1 =
      [some 30] ∧
    (buildPaymentTx st0 kp0 acct0 "GDEST" "10" "XLM" "").timeout ≠ none := by
  decide

/-- **C3, amended.** The payment flow sets no network-request timeout of
its own; the one timeout value the repository's code does set is the
30-second transaction timebound applied by `setTimeout(30)`: every
transaction submitted by any invocation of `executePayment` carries
timeout 30. -/
theorem C3_timebound_thirty (srv : HorizonServer) (now : Nat)
    (st : TraderState) (dest amt ac memo : String) :
    ∀ tmo ∈ submittedTimeouts (executePayment srv now st dest amt ac memo).2.1,
      tmo = some 30 := by
  cases hkp : st.keypair with
  | none => simp [executePayment, hkp, submittedTimeouts]
  | some kp =>
    cases hla : srv.loadAccount kp.pub with
    | error e => simp [executePayment, hkp, hla, submittedTimeouts]
    | ok acct =>
      cases hsub : srv.submitTransaction (buildPaymentTx st kp acct dest amt ac memo) with
      | error e =>
        simp only [executePayment, hkp, hla, hsub]
        simp [submittedTimeouts, buildPaymentTx]
      | ok res =>
        simp only [executePayment, hkp, hla, hsub]
        simp [submittedTimeouts, buildPaymentTx]

/-- Witness for the amended C3 on a concrete run. -/
theorem C3_timebound_thirty_witness :
    some 30 ∈ submittedTimeouts (executePayment srv0 0 st0 "GDEST" "10" "XLM" "").2.1 ∧
    (some 30 : Option Nat) = some 30 :=
  ⟨by decide,
   C3_timebound_thirty srv0 0 st0 "GDEST" "10" "XLM" "" (some 30) (by decide)⟩

/-- **C4.** The keypair slot is the trader's only mutable state:
`executePayment` and `getAccountBalance` return the trader with every field
(server handle, keypair, network passphrase) unchanged on success and error
paths alike, and `connect` — the one operation that writes the keypair —
leaves the server handle and the passphrase unchanged. -/
theorem C4_trader_state_frame (srv : HorizonServer) (now : Nat)
    (st : TraderState) (dest amt ac memo pk s : String)
    (fromSecret : String → Option Keypair) :
    (executePayment srv now st dest amt ac memo).2.2 = st ∧
    (getAccountBalance srv st pk).2.2 = st ∧
    (connect fromSecret st s).2.serverUrl = st.serverUrl ∧
    (connect fromSecret st s).2.networkPassphrase = st.networkPassphrase := by
  refine ⟨?_, ?_, ?_, ?_⟩
  · simp only [executePayment]
    split
    · rfl
    · split
      · rfl
      · split <;> rfl
  · simp only [getAccountBalance]
    split <;> rfl
  · simp only [connect]
    split <;> rfl
  · simp only [connect]
    split <;> rfl

/-- The trace of network requests issued by `executePayment` is one of:
nothing (not connected), a single failed account load, or an account load
followed by a single submission. -/
theorem executePayment_trace_cases (srv : HorizonServer) (now : Nat)
    (st : TraderState) (dest amt ac memo : String) :
    (executePayment srv now st dest amt ac memo).2.1 = [] ∨
    (∃ k, (executePayment srv now st dest amt ac memo).2.1 = [.loadAccount k]) ∨
    (∃ k tx, (executePayment srv now st dest amt ac memo).2.1 =
      [.loadAccount k, .submitTransaction tx]) := by
  simp only [executePayment]
  split
  · exact .inl rfl
  · split
    · exact .inr (.inl ⟨_, rfl⟩)
    · split
      · exact .inr (.inr ⟨_, _, rfl⟩)
      · exact .inr (.inr ⟨_, _, rfl⟩)

/-- `getAccountBalance` performs exactly one account load. -/
theorem getAccountBalance_trace (srv : HorizonServer) (st : TraderState)
    (pk : String) :
    (getAccountBalance srv st pk).2.1 = [.loadAccount pk] := by
  simp only [getAccountBalance]
  split <;> rfl

/-- **C5.** The payment flow is a linear single-request chain: one
invocation of `executePayment` submits the transaction to the network at
most once, and the whole UI handler around it (validation, payment, balance
reload) still contains at most one submission — a failed submission is
never resubmitted or queued. -/
theorem C5_submit_at_most_once (srv : HorizonServer) (now : Nat)
    (st : TraderState) (dest amt ac memo : String) (store : Option String)
    (ui : UiState) :
    ((executePayment srv now st dest amt ac memo).2.1.countP NetEvent.isSubmit) ≤ 1 ∧
    ((handleExecutePayment srv store now st ui).2.2.countP NetEvent.isSubmit) ≤ 1 := by
  have hcount : ∀ (srv2 : HorizonServer) (now2 : Nat) (st2 : TraderState)
      (d2 a2 c2 m2 : String),
      ((executePayment srv2 now2 st2 d2 a2 c2 m2).2.1.countP NetEvent.isSubmit) ≤ 1 := by
    intro srv2 now2 st2 d2 a2 c2 m2
    rcases executePayment_trace_cases srv2 now2 st2 d2 a2 c2 m2 with h | ⟨k, h⟩ | ⟨k, tx, h⟩ <;>
      simp [h, List.countP_cons, NetEvent.isSubmit]
  refine ⟨hcount srv now st dest amt ac memo, ?_⟩
  simp only [handleExecutePayment]
  split
  · simp
  · split
    · next m tr st2 heq =>
      have h1 := hcount srv now st ui.destination ui.amount ui.fromCurrency ui.memo
      rw [heq] at h1
      exact h1
    · next result tr st2 heq =>
      have h1 : tr.countP NetEvent.isSubmit ≤ 1 := by
        have h0 := hcount srv now st ui.destination ui.amount ui.fromCurrency ui.memo
        rw [heq] at h0
        simpa using h0
      split
      · next secretKey =>
        split
        · exact h1
        · split
          · next m2 tr2 st3 heq2 =>
            have h2 : tr2 = [NetEvent.loadAccount secretKey] := by
              have h0 := getAccountBalance_trace srv st secretKey
              rw [heq2] at h0
              simpa using h0
            rw [h2, List.countP_append]
            simpa [List.countP_cons, NetEvent.isSubmit] using h1
          · next b2 tr2 st3 heq2 =>
            have h2 : tr2 = [NetEvent.loadAccount secretKey] := by
              have h0 := getAccountBalance_trace srv st secretKey
              rw [heq2] at h0
              simpa using h0
            rw [h2, List.countP_append]
            simpa [List.countP_cons, NetEvent.isSubmit] using h1
      · exact h1

/-- **C1.** Evaluation of the full payment flow at a connected trader
against a Horizon oracle that (like the real network) only serves the
account keyed by the public key: the flow does load the source account,
submit the signed transaction, and then attempt a balance reload — but the
reload is keyed by the secret key taken from local storage
(`getAccountBalance(secretKey)`), not by the source account's public key,
so the lookup fails, no balance is displayed, and a spurious
`Payment failed` toast follows the success toast. -/
theorem C1_reconcile_keyed_by_secret :
    (handleExecutePayment srv0 (some "SSECRETKEY") 0 st0 ui0).2.2 =
      [ .loadAccount "GPUB"
      , .submitTransaction (buildPaymentTx st0 kp0 acct0 "GDEST" "10" "XLM" "")
      , .loadAccount "SSECRETKEY" ] ∧
    (buildPaymentTx st0 kp0 acct0 "GDEST" "10" "XLM" "").signers = [kp0] ∧
    "SSECRETKEY" ≠ kp0.pub ∧
    (handleExecutePayment srv0 (some "SSECRETKEY") 0 st0 ui0).1.balance = none ∧
    (handleExecutePayment srv0 (some "SSECRETKEY") 0 st0 ui0).2.1 =
      [ "Payment executed successfully!"
      , "Payment failed: Failed to get account balance: Not Found" ] := by
  decide

/-- **C6.** Every trade result a successful `executePayment` returns has
its status in the fixed label set, and on every accepted status label the
renderer is total: the badge colour is defined and the badge text is the
matching capitalized label. -/
theorem C6_status_label_set (srv : HorizonServer) (now : Nat)
    (st : TraderState) (dest amt ac memo : String) (r : TradeResult)
    (env : JsEnv) (t : Transaction) :
    ((executePayment srv now st dest amt ac memo).1 = .ok r →
      r.status ∈ statusLabels) ∧
    (t.status ∈ statusLabels →
      (getStatusColor t.status).isSome ∧
      (renderRow env t).badgeColor = getStatusColor t.status ∧
      (renderRow env t).badgeText ∈ ["Completed", "Pending", "Failed"]) := by
  constructor
  · intro h
    simp only [executePayment] at h
    split at h
    · exact absurd h (by simp)
    · split at h
      · exact absurd h (by simp)
      · split at h
        · exact absurd h (by simp)
        · have hst : r.status = "completed" := by
            rw [← Except.ok.inj h]
          rw [hst]
          decide
  · intro hmem
    simp only [statusLabels, List.mem_cons, List.not_mem_nil, or_false] at hmem
    rcases hmem with h | h | h <;>
      exact ⟨by rw [h]; decide, rfl,
        by show capitalizeStatus t.status ∈ ["Completed", "Pending", "Failed"]
           rw [h]; decide⟩

/-- Witness for C6: a concrete `pending` transaction renders with a defined
badge colour and the `Pending` label. -/
theorem C6_status_label_set_witness :
    t1.status ∈ statusLabels ∧
    ((getStatusColor t1.status).isSome ∧
     (renderRow env0 t1).badgeColor = getStatusColor t1.status ∧
     (renderRow env0 t1).badgeText ∈ ["Completed", "Pending", "Failed"]) :=
  ⟨by decide,
   (C6_status_label_set srv0 0 st0 "GDEST" "10" "XLM" ""
      { id := "", fromAsset := "", toAsset := "", amount := none
      , rate := .ofNat 1, timestamp := 0, hash := "", status := "completed" }
      env0 t1).2 (by decide)⟩

/-- **C7.** The transaction-list view is a pure function of the list its
caller supplies: the empty list renders as the `No transactions yet`
message, and a non-empty list renders as exactly one row per supplied
transaction, in the order supplied (the row keys are the supplied ids in
order); no transaction store is read or written. -/
theorem C7_renders_supplied_list (env : JsEnv) (ts : List Transaction) :
    (ts = [] → renderTransactionList env ts = .empty "No transactions yet") ∧
    (ts ≠ [] →
      renderTransactionList env ts = .rows (ts.map (renderRow env)) ∧
      (ts.map (renderRow env)).map RenderedRow.key = ts.map Transaction.id) := by
  constructor
  · rintro rfl
    rfl
  · intro h
    constructor
    · unfold renderTransactionList
      rw [if_neg]
      simpa [List.length_eq_zero] using h
    · rw [List.map_map]
      exact List.map_congr_left fun t _ => rfl

/-- Witness for C7 on a one-element list. -/
theorem C7_renders_supplied_list_witness :
    ([t1] : List Transaction) ≠ [] ∧
    (renderTransactionList env0 [t1] = .rows ([t1].map (renderRow env0)) ∧
     ([t1].map (renderRow env0)).map RenderedRow.key = [t1].map Transaction.id) :=
  ⟨by decide, (C7_renders_supplied_list env0 [t1]).2 (by decide)⟩

/-- **C8.** A successful `executePayment` returns exactly the record built
at lines 101–110: status `completed` (never `pending` or `failed`), `id`
equal to `hash` (both the submission result's hash), rate 1, `toAsset`
`'XLM'`, and `amount` the numeric parse of the amount argument; a failed
submission yields a thrown wrapped error, never a `failed` trade result. -/
theorem C8_success_record (srv : HorizonServer) (now : Nat)
    (st : TraderState) (kp : Keypair) (dest amt ac memo : String)
    (r : TradeResult) (acct : HorizonAccount) (res : SubmitResult)
    (e : JsError) (hkp : st.keypair = some kp) :
    (srv.loadAccount kp.pub = .ok acct →
      srv.submitTransaction (buildPaymentTx st kp acct dest amt ac memo) = .ok res →
      (executePayment srv now st dest amt ac memo).1 =
        .ok { id := res.hash, fromAsset := ac, toAsset := "XLM"
            , amount := jsParseFloat amt, rate := .ofNat 1, timestamp := now
            , hash := res.hash, status := "completed" }) ∧
    ((executePayment srv now st dest amt ac memo).1 = .ok r →
      r.status = "completed" ∧ r.id = r.hash ∧ r.rate = .ofNat 1 ∧
      r.toAsset = "XLM" ∧ r.amount = jsParseFloat amt) ∧
    (srv.loadAccount kp.pub = .ok acct →
      srv.submitTransaction (buildPaymentTx st kp acct dest amt ac memo) = .error e →
      (executePayment srv now st dest amt ac memo).1 =
        .error ("Payment failed: " ++ e.displayMessage)) := by
  refine ⟨?_, ?_, ?_⟩
  · intro h1 h2
    simp only [executePayment, hkp, h1, h2]
  · intro h
    simp only [executePayment, hkp] at h
    split at h
    · exact absurd h (by simp)
    · split at h
      · exact absurd h (by simp)
      · rw [← Except.ok.inj h]
        exact ⟨rfl, rfl, rfl, rfl, rfl⟩
  · intro h1 h2
    simp only [executePayment, hkp, h1, h2]

/-- Witness for C8 on the concrete accepting oracle. -/
theorem C8_success_record_witness :
    st0.keypair = some kp0 ∧
    srv0.loadAccount kp0.pub = .ok acct0 ∧
    srv0.submitTransaction (buildPaymentTx st0 kp0 acct0 "GDEST" "10" "XLM" "") =
      .ok { hash := "abc123" } ∧
    (executePayment srv0 0 st0 "GDEST" "10" "XLM" "").1 =
      .ok { id := "abc123", fromAsset := "XLM", toAsset := "XLM"
          , amount := jsParseFloat "10", rate := .ofNat 1, timestamp := 0
          , hash := "abc123", status := "completed" } :=
  ⟨by decide, by decide, by decide,
   (C8_success_record srv0 0 st0 kp0 "GDEST" "10" "XLM" ""
      { id := "", fromAsset := "", toAsset := "", amount := none
      , rate := .ofNat 1, timestamp := 0, hash := "", status := "completed" }
      acct0 { hash := "abc123" } { message := none } (by decide)).1
     (by decide) (by decide)⟩

/-- A wrapped network-failure message can never be the not-connected
message: the two start with different characters. -/
theorem paymentFailed_ne_notConnected (m : String) :
    "Payment failed: " ++ m ≠ notConnectedMsg := by
  intro h
  have h2 : ("Payment failed: " ++ m).data = notConnectedMsg.data :=
    congrArg String.data h
  rw [String.data_append] at h2
  rw [show ("Payment failed: ").data = 'P' :: "ayment failed: ".data from rfl] at h2
  rw [show notConnectedMsg.data =
        'N' :: "ot connected. Call connect() with a valid secret key first.".data
      from rfl] at h2
  simp at h2

/-- **C9.** `executePayment` refuses with the not-connected error exactly
when the keypair slot is null, which is exactly when `isReady` is false;
with a stored keypair the refusal branch is unreachable and the flow
proceeds to the network, its first request being the source-account load
keyed by the stored public key. -/
theorem C9_not_connected_guard (srv : HorizonServer) (now : Nat)
    (st : TraderState) (dest amt ac memo : String) :
    ((executePayment srv now st dest amt ac memo).1 = .error notConnectedMsg ↔
      st.keypair = none) ∧
    (st.keypair = none ↔ isReady st = false) ∧
    (∀ kp, st.keypair = some kp →
      (executePayment srv now st dest amt ac memo).2.1.head? =
        some (.loadAccount kp.pub)) := by
  refine ⟨⟨?_, ?_⟩, ?_, ?_⟩
  · intro h
    cases hkp : st.keypair with
    | none => rfl
    | some kp =>
      exfalso
      simp only [executePayment, hkp] at h
      split at h
      · exact paymentFailed_ne_notConnected _ (Except.error.inj h)
      · split at h
        · exact paymentFailed_ne_notConnected _ (Except.error.inj h)
        · exact Except.noConfusion h
  · intro h
    simp only [executePayment, h]
  · cases hkp : st.keypair with
    | none => simp [isReady, hkp]
    | some kp => simp [isReady, hkp]
  · intro kp hkp
    simp only [executePayment, hkp]
    split
    · rfl
    · split <;> rfl

/-- Witness for C9 on a connected trader: the first network request is the
account load for the stored public key. -/
theorem C9_not_connected_guard_witness :
    st0.keypair = some kp0 ∧
    (executePayment srv0 0 st0 "GDEST" "10" "XLM" "").2.1.head? =
      some (.loadAccount kp0.pub) :=
  ⟨by decide,
   (C9_not_connected_guard srv0 0 st0 "GDEST" "10" "XLM" "").2.2 kp0 (by decide)⟩

/-- **C10.** `connect` is total (it returns a boolean rather than
throwing): a secret the SDK accepts stores the derived keypair and returns
`true`, after which `isReady` holds; a secret the SDK rejects returns
`false` and leaves the whole trader state — the previously stored keypair
included — unchanged. -/
theorem C10_connect_total (fromSecret : String → Option Keypair)
    (st : TraderState) (s : String) (kp : Keypair) :
    (fromSecret s = some kp →
      connect fromSecret st s = (true, { st with keypair := some kp }) ∧
      isReady (connect fromSecret st s).2 = true) ∧
    (fromSecret s = none →
      connect fromSecret st s = (false, st)) := by
  constructor
  · intro h
    constructor
    · simp [connect, h]
    · simp [connect, h, isReady]
  · intro h
    simp [connect, h]

/-- Witness for C10 with a concrete SDK oracle accepting exactly one
secret. -/
theorem C10_connect_total_witness :
    (fun s => if s = "SSECRETKEY" then some kp0 else none) "SSECRETKEY" = some kp0 ∧
    (connect (fun s => if s = "SSECRETKEY" then some kp0 else none)
        (StellarTrader.new "testnet") "SSECRETKEY" =
      (true, { StellarTrader.new "testnet" with keypair := some kp0 }) ∧
     isReady (connect (fun s => if s = "SSECRETKEY" then some kp0 else none)
        (StellarTrader.new "testnet") "SSECRETKEY").2 = true) :=
  ⟨by decide,
   (C10_connect_total (fun s => if s = "SSECRETKEY" then some kp0 else none)
      (StellarTrader.new "testnet") "SSECRETKEY" kp0).1 (by decide)⟩
